import Mathlib

/-!
Shallow embedding of the competitive-intelligence pipeline in
src/services/geminiService.ts.

The external generative-model service (the gateway) is out of scope: each
stage embedding takes the gateway outcome (a ModelResponse, or an error for
the Reporter stage) as an input, together with the wall-clock data
(timestamp string, measured latency) that the source reads from the runtime.
The JavaScript builtin JSON.parse is likewise a runtime primitive, modelled
as an abstract parser argument returning none when parsing throws.
JavaScript strings are modelled as Lean strings; s.slice(0, n) becomes
jsSlice, the falsy-coalescing operator on strings becomes jsOrElse, and
Array.join becomes jsJoin.
-/

/-! ## Data model -/

/-- Token-usage record of a gateway response (usageMetadata). Every field is
optional, as in the wire format. -/
structure Usage where
  promptTokenCount : Option Nat := none
  candidatesTokenCount : Option Nat := none
  totalTokenCount : Option Nat := none
deriving Repr, DecidableEq

/-- The web part of a grounding chunk: an optional uri and title. -/
structure WebRef where
  uri : Option String := none
  title : Option String := none
deriving Repr, DecidableEq

/-- One grounding chunk returned by a search-grounded call. -/
structure GroundingChunk where
  web : Option WebRef := none
deriving Repr, DecidableEq

/-- groundingMetadata of a response candidate. -/
structure GroundingMetadata where
  groundingChunks : Option (List GroundingChunk) := none
deriving Repr, DecidableEq

/-- One response candidate; only its grounding metadata is read by the code. -/
structure Candidate where
  groundingMetadata : Option GroundingMetadata := none
deriving Repr, DecidableEq

/-- The gateway response shape read by the stages: text, usageMetadata and
candidates are all optional. -/
structure ModelResponse where
  text : Option String := none
  usageMetadata : Option Usage := none
  candidates : Option (List Candidate) := none
deriving Repr, DecidableEq

/-- Agent identity of a log entry (AgentRole in types.ts). -/
inductive AgentRole where
  | ROUTER | HUNTER | SCRAPER | ANALYST | REPORTER
deriving Repr, DecidableEq

/-- Status of a log entry: the source writes the literal strings
success and error into the type field. -/
inductive LogType where
  | success | error
deriving Repr, DecidableEq

/-- Uniform per-stage log record (LogEntry in types.ts). Latency and cost are
modelled as rationals, token usage as a natural number. -/
structure LogEntry where
  timestamp : String
  agent : AgentRole
  message : String
  type : LogType
  latencyMs : Rat
  tokenUsage : Nat
  cost : Rat
deriving Repr, DecidableEq

/-- A discovered source (ScrapedContent in types.ts). -/
structure ScrapedContent where
  url : String
  title : String
  snippet : String
  content : String
deriving Repr, DecidableEq

/-! ## JavaScript string primitives -/

/-- Model of s.slice(0, n) for a nonnegative bound: the first n characters. -/
def jsSlice (s : String) (n : Nat) : String :=
  ⟨s.data.take n⟩

/-- Truthiness of an optional JavaScript string: undefined and the empty
string are falsy. -/
def jsTruthyStr : Option String → Bool
  | none => false
  | some s => !s.isEmpty

/-- Model of the expression (x || d) on an optional JavaScript string x:
the default replaces undefined and the empty string. -/
def jsOrElse (s : Option String) (d : String) : String :=
  match s with
  | none => d
  | some t => if t.isEmpty then d else t

/-- JavaScript string interpolation of a possibly-undefined string value. -/
def jsDisplay : Option String → String
  | none => "undefined"
  | some s => s

/-- Model of Array.join(sep) on a list of strings. -/
def jsJoin (sep : String) : List String → String
  | [] => ""
  | [s] => s
  | s :: rest => s ++ sep ++ jsJoin sep (rest)

/-- The string sub occurs contiguously inside s. -/
def containsStr (s sub : String) : Prop :=
  ∃ a b : String, s = a ++ sub ++ b

/-! ## encodeURIComponent -/

/-- Characters left unescaped by encodeURIComponent:
letters, digits, and - _ . ! ~ * apostrophe ( ). -/
def isUnreservedChar (c : Char) : Bool :=
  (65 ≤ c.toNat && c.toNat ≤ 90) || (97 ≤ c.toNat && c.toNat ≤ 122) ||
  (48 ≤ c.toNat && c.toNat ≤ 57) ||
  c.toNat == 45 || c.toNat == 95 || c.toNat == 46 || c.toNat == 33 ||
  c.toNat == 126 || c.toNat == 42 || c.toNat == 39 || c.toNat == 40 ||
  c.toNat == 41

/-- Upper-case hexadecimal digit for a value below 16. -/
def hexDigitChar (n : Nat) : Char :=
  if n < 10 then Char.ofNat (48 + n) else Char.ofNat (55 + n)

/-- Percent-encoding of one byte. -/
def percentEncodeByte (b : Nat) : List Char :=
  ['%', hexDigitChar (b / 16), hexDigitChar (b % 16)]

/-- UTF-8 bytes of one character. -/
def utf8Bytes (c : Char) : List Nat :=
  let n := c.toNat
  if n < 128 then [n]
  else if n < 2048 then [192 + n / 64, 128 + n % 64]
  else if n < 65536 then [224 + n / 4096, 128 + (n / 64) % 64, 128 + n % 64]
  else [240 + n / 262144, 128 + (n / 4096) % 64, 128 + (n / 64) % 64,
        128 + n % 64]

/-- Model of the JavaScript builtin encodeURIComponent. -/
def encodeURIComponent (s : String) : String :=
  ⟨(s.data.map fun c =>
      if isUnreservedChar c then [c]
      else ((utf8Bytes c).map percentEncodeByte).flatten).flatten⟩

/-! ## Cost estimator -/

/-- One entry of the price table: dollars per thousand input and output
tokens. -/
structure Pricing where
  input : Rat
  output : Rat
deriving Repr, DecidableEq

/-- Modelled from the spec: the static price table PRICING lives in
constants.ts, which is not under src/. Section 4.1 of the spec describes it
as a price table keyed by model identifier with a documented default tier;
the source hard-codes the default key gemini-2.5-flash, so the table is
modelled as a lookup function together with its always-present entry at that
default key. -/
structure PricingTable where
  lookup : String → Option Pricing
  flashEntry : Pricing

/-- Resolution of PRICING[model] || PRICING[gemini-2.5-flash]. -/
def resolvePricing (tbl : PricingTable) (model : String) : Pricing :=
  (tbl.lookup model).getD tbl.flashEntry

/-- Embedding of calculateCost (geminiService.ts lines 11 to 17): absent
usage yields 0; otherwise each absent count is coalesced to 0 and the cost
is promptTokenCount/1000 times the input price plus candidatesTokenCount/1000
times the output price. -/
def calculateCost (tbl : PricingTable) (model : String)
    (usage : Option Usage) : Rat :=
  match usage with
  | none => 0
  | some u =>
    let pricing := resolvePricing tbl model
    let inputCost := ((u.promptTokenCount.getD 0 : Nat) : Rat) / 1000 *
      pricing.input
    let outputCost := ((u.candidatesTokenCount.getD 0 : Nat) : Rat) / 1000 *
      pricing.output
    inputCost + outputCost

/-- The prompt token count the formula uses: 0 when usage or the field is
absent. -/
def promptCountOf : Option Usage → Nat
  | none => 0
  | some u => u.promptTokenCount.getD 0

/-- The candidates token count the formula uses: 0 when usage or the field
is absent. -/
def candidatesCountOf : Option Usage → Nat
  | none => 0
  | some u => u.candidatesTokenCount.getD 0

/-! ## Router stage -/

/-- The object JSON.parse yields for the Router: every schema field may be
absent, since the schema is only requested, not enforced. -/
structure RouterParsed where
  target_company : Option String := none
  analysis_type : Option String := none
  search_queries : Option (List String) := none
deriving Repr, DecidableEq

/-- Result of the Router stage on its success path. -/
structure RouterResult where
  target_company : Option String
  analysis_type : Option String
  search_queries : Option (List String)
  log : LogEntry
deriving Repr, DecidableEq

/-- Embedding of runRouterAgent after the gateway call (geminiService.ts
lines 43 to 61): JSON.parse is applied to the response text coalesced with
the empty-object literal; a parse failure is rethrown to the caller, a
success builds the result by spreading the parsed object and attaching a
success log. -/
def runRouterAgent (parseRouter : String → Option RouterParsed)
    (tbl : PricingTable) (routerModel : String) (ts : String) (lat : Rat)
    (resp : ModelResponse) : Except Unit RouterResult :=
  match parseRouter (jsOrElse resp.text "\x7b\x7d") with
  | none => Except.error ()
  | some result =>
    Except.ok
      { target_company := result.target_company
        analysis_type := result.analysis_type
        search_queries := result.search_queries
        log :=
          { timestamp := ts
            agent := AgentRole.ROUTER
            message := "Identified target: " ++
              jsDisplay result.target_company ++ " (" ++
              jsDisplay result.analysis_type ++ ")"
            type := LogType.success
            latencyMs := lat
            tokenUsage := (resp.usageMetadata.bind
              (fun u => u.totalTokenCount)).getD 0
            cost := calculateCost tbl routerModel resp.usageMetadata } }

/-! ## Hunter stage -/

/-- The grounding chunks of a response:
candidates[0].groundingMetadata.groundingChunks with every optional step
coalesced to the empty list. -/
def chunksOf (resp : ModelResponse) : List GroundingChunk :=
  ((((resp.candidates.bind fun cs => cs.head?).bind
    fun c => c.groundingMetadata).bind
    fun m => m.groundingChunks).getD [])

/-- The filter the Hunter applies to a chunk: web.uri and web.title must both
be present and truthy. -/
def chunkQualifies (c : GroundingChunk) : Bool :=
  match c.web with
  | none => false
  | some w => jsTruthyStr w.uri && jsTruthyStr w.title

/-- The Hunter SourceRecords synthesized from the grounding chunks: one per
qualifying chunk, all carrying the whole response text as content and a
200-character snippet of it. -/
def hunterFromChunks (text : String) (chunks : List GroundingChunk) :
    List ScrapedContent :=
  (chunks.filter chunkQualifies).map fun c =>
    { url := (c.web.bind fun w => w.uri).getD ""
      title := (c.web.bind fun w => w.title).getD ""
      snippet := jsSlice text 200 ++ "..."
      content := text }

/-- The generic search URL of the Hunter fallback record. -/
def hunterFallbackUrl (company : String) : String :=
  "https://google.com/search?q=" ++ encodeURIComponent company

/-- The discoveredUrls local of runHunterAgent, before the truncation pass:
the chunk-derived records, or the single fallback record when no chunk
qualifies and the response text is truthy. -/
def hunterDiscoveredUrls (company : String) (resp : ModelResponse) :
    List ScrapedContent :=
  let discovered := hunterFromChunks (resp.text.getD "") (chunksOf resp)
  if discovered.length == 0 && jsTruthyStr resp.text then
    [{ url := hunterFallbackUrl company
       title := company ++ " Search Results"
       snippet := jsSlice (resp.text.getD "") 150 ++ "..."
       content := resp.text.getD "" }]
  else discovered

/-- Result of the Hunter stage. -/
structure HunterResult where
  discoveredUrls : List ScrapedContent
  log : LogEntry
deriving Repr, DecidableEq

/-- Embedding of runHunterAgent after the gateway call (geminiService.ts
lines 85 to 125): records are synthesized from the qualifying grounding
chunks, the single-record fallback applies when none qualify and text is
truthy, and every record content is then truncated to 2000 characters. The
queries argument only steers the outbound prompt and does not affect this
post-processing. -/
def runHunterAgent (tbl : PricingTable) (hunterModel : String) (ts : String)
    (lat : Rat) (company : String) (queries : List String)
    (resp : ModelResponse) : HunterResult :=
  let discoveredUrls := hunterDiscoveredUrls company resp
  let optimizedUrls := discoveredUrls.map fun u =>
    { u with content := jsSlice u.content 2000 }
  { discoveredUrls := optimizedUrls
    log :=
      { timestamp := ts
        agent := AgentRole.HUNTER
        message := "Discovered " ++ toString discoveredUrls.length ++
          " high-signal URLs via Google Search"
        type := LogType.success
        latencyMs := lat
        tokenUsage := (resp.usageMetadata.bind
          (fun u => u.totalTokenCount)).getD 0
        cost := calculateCost tbl hunterModel resp.usageMetadata } }

/-! ## Scraper stage -/

/-- The fixed substitution instruction used when no SourceRecord was
supplied. -/
def scraperNoUrlsSentinel : String :=
  "No specific URLs found, please analyze general knowledge about the company."

/-- One Source/Title/Summary block of the raw-data blob, with the summary
capped at 2000 characters. -/
def scraperBlock (u : ScrapedContent) : String :=
  "Source: " ++ u.url ++ "\nTitle: " ++ u.title ++ "\nSummary: " ++
    jsSlice u.content 2000

/-- The rawText local of runScraperAgent: the joined per-record blocks, or
the no-URLs sentinel when the input list is empty. -/
def scraperRawText (urls : List ScrapedContent) : String :=
  if 0 < urls.length then jsJoin "\n\n" (urls.map scraperBlock)
  else scraperNoUrlsSentinel

/-- The fixed template text preceding the raw data in the Scraper prompt,
with the indentation of the source template literal. -/
def scraperPromptHeader : String :=
  "You are a Data Engineer. Clean and consolidate the following competitive intelligence data. \n      Remove duplicates, noise, and marketing fluff. Preserve facts, numbers, dates, and pricing.\n      Keep the output concise (under 4000 tokens).\n      \n      RAW DATA:\n      "

/-- The contents string runScraperAgent sends to the gateway. -/
def scraperPrompt (urls : List ScrapedContent) : String :=
  scraperPromptHeader ++ scraperRawText urls

/-- Fallback placeholder substituted when the Scraper response text is empty. -/
def scraperEmptySentinel : String :=
  "Data extracted but no summary generated."

/-- Result of the Scraper stage. -/
structure ScraperResult where
  extractedContent : String
  log : LogEntry
deriving Repr, DecidableEq

/-- Embedding of runScraperAgent after the gateway call (geminiService.ts
lines 153 to 171): an absent or empty response text is replaced by a fixed
placeholder, and a success log is attached. -/
def runScraperAgent (tbl : PricingTable) (scraperModel : String)
    (ts : String) (lat : Rat) (urls : List ScrapedContent)
    (resp : ModelResponse) : ScraperResult :=
  let content :=
    if jsTruthyStr resp.text then resp.text.getD "" else scraperEmptySentinel
  { extractedContent := content
    log :=
      { timestamp := ts
        agent := AgentRole.SCRAPER
        message := "Processed and cleaned content from " ++
          toString urls.length ++ " sources"
        type := LogType.success
        latencyMs := lat
        tokenUsage := (resp.usageMetadata.bind
          (fun u => u.totalTokenCount)).getD 0
        cost := calculateCost tbl scraperModel resp.usageMetadata } }

/-! ## Analyst stage -/

/-- The scores object as the Analyst may receive it from JSON.parse: each of
the five keys may be absent, and present values are arbitrary integers (the
schema is only requested, not enforced). -/
structure ScoresObj where
  innovation : Option Int := none
  market_share : Option Int := none
  pricing_power : Option Int := none
  brand_reputation : Option Int := none
  velocity : Option Int := none
deriving Repr, DecidableEq

/-- The object JSON.parse yields for the Analyst: every field may be absent.
A parse outcome of none also covers a parsed value on which reading the
scores property throws, such as null. -/
structure ParsedSwot where
  strengths : Option (List String) := none
  weaknesses : Option (List String) := none
  opportunities : Option (List String) := none
  threats : Option (List String) := none
  scores : Option ScoresObj := none
deriving Repr, DecidableEq

/-- The SWOT value the Analyst returns: the list fields keep whatever the
parse produced (possibly absent), while the scores object is always present
after the repair step, though its individual keys may still be absent. -/
structure SWOT where
  strengths : Option (List String)
  weaknesses : Option (List String)
  opportunities : Option (List String)
  threats : Option (List String)
  scores : ScoresObj
deriving Repr, DecidableEq

/-- The scores object with all five keys at the given value. -/
def uniformScores (v : Int) : ScoresObj :=
  { innovation := some v, market_share := some v, pricing_power := some v
    brand_reputation := some v, velocity := some v }

/-- The parse-and-repair step of runAnalystAgent (geminiService.ts lines 217
to 236). On parse success the parsed object is kept; only a falsy scores
field (absent) is replaced, by the all-50 object. On parse failure the
all-empty, all-zero fallback SWOT is produced and the warning flag records
the console.warn call. -/
def analystRepair (parsed : Option ParsedSwot) : SWOT × Bool :=
  match parsed with
  | some p =>
    let scores :=
      match p.scores with
      | some s => s
      | none => uniformScores 50
    ({ strengths := p.strengths, weaknesses := p.weaknesses
       opportunities := p.opportunities, threats := p.threats
       scores := scores }, false)
  | none =>
    ({ strengths := some [], weaknesses := some [], opportunities := some []
       threats := some [], scores := uniformScores 0 }, true)

/-- The five score values in fixed key order. -/
def scoresValues (s : ScoresObj) : List (Option Int) :=
  [s.innovation, s.market_share, s.pricing_power, s.brand_reputation,
   s.velocity]

/-- The average the Analyst log message reports: undefined score values make
the JavaScript arithmetic produce NaN, modelled as none. -/
def analystAvg (s : ScoresObj) : Option Rat :=
  if (scoresValues s).all (fun v => v.isSome) then
    some ((((scoresValues s).map (fun v => ((v.getD 0 : Int) : Rat))).sum) / 5)
  else none

/-- Display of the average in the log message; the numeric formatting of
JavaScript is abstracted to the Rat printer, and NaN prints as such. -/
def analystAvgDisplay (s : ScoresObj) : String :=
  match analystAvg s with
  | some q => toString q
  | none => "NaN"

/-- The guard runAnalystAgent applies to its input before prompting. -/
def analystSafeContent (content : String) : String :=
  if !content.isEmpty && 10 < content.trim.length then content
  else "No data available for analysis."

/-- Result of the Analyst stage; warned records whether the parse-failure
console.warn fired. -/
structure AnalystResult where
  swot : SWOT
  warned : Bool
  log : LogEntry
deriving Repr, DecidableEq

/-- Embedding of runAnalystAgent after the gateway call (geminiService.ts
lines 217 to 251): parse-and-repair of the response text, then a success log
whose message reports the average score. -/
def runAnalystAgent (parseSwot : String → Option ParsedSwot)
    (tbl : PricingTable) (analystModel : String) (ts : String) (lat : Rat)
    (content : String) (resp : ModelResponse) : AnalystResult :=
  let sw := analystRepair (parseSwot (jsOrElse resp.text "\x7b\x7d"))
  { swot := sw.1
    warned := sw.2
    log :=
      { timestamp := ts
        agent := AgentRole.ANALYST
        message := "Generated SWOT analysis with " ++
          analystAvgDisplay sw.1.scores ++ "% avg score"
        type := LogType.success
        latencyMs := lat
        tokenUsage := (resp.usageMetadata.bind
          (fun u => u.totalTokenCount)).getD 0
        cost := calculateCost tbl analystModel resp.usageMetadata } }

/-! ## Reporter stage -/

/-- The fixed failure-placeholder markdown of the Reporter. -/
def reporterPlaceholder : String :=
  "# Report Generation Failed\n\nThe AI model encountered an error generating the final report. Please try again."

/-- Result of the Reporter stage. -/
structure ReporterResult where
  report : String
  log : LogEntry
deriving Repr, DecidableEq

/-- The degraded-success result of the Reporter catch block (geminiService.ts
lines 294 to 310): the placeholder report with a zeroed error log naming the
caught error. -/
def reporterFailure (errDisplay : String) (ts : String) : ReporterResult :=
  { report := reporterPlaceholder
    log :=
      { timestamp := ts
        agent := AgentRole.REPORTER
        message := "Failed to generate report: " ++ errDisplay
        type := LogType.error
        latencyMs := 0
        tokenUsage := 0
        cost := 0 } }

/-- The error message thrown on an empty Reporter response, as interpolated
into the failure log. -/
def reporterEmptyErr : String :=
  "Error: Reporter agent returned empty content."

/-- Embedding of runReporterAgent (geminiService.ts lines 266 to 310). The
gateway outcome is an Except: a gateway error, or a response. A gateway
error, and a response whose text is absent or empty (which the robustness
check turns into a thrown error), both land in the catch block and yield the
placeholder result; a truthy text yields it as the report with a success
log. -/
def runReporterAgent (tbl : PricingTable) (reporterModel : String)
    (ts : String) (lat : Rat) (company : String)
    (gw : Except String ModelResponse) : ReporterResult :=
  match gw with
  | Except.error e => reporterFailure e ts
  | Except.ok resp =>
    if jsTruthyStr resp.text then
      { report := resp.text.getD ""
        log :=
          { timestamp := ts
            agent := AgentRole.REPORTER
            message := "Finalized executive report for " ++ company
            type := LogType.success
            latencyMs := lat
            tokenUsage := (resp.usageMetadata.bind
              (fun u => u.totalTokenCount)).getD 0
            cost := calculateCost tbl reporterModel resp.usageMetadata } }
    else reporterFailure reporterEmptyErr ts

/-! ## Helper lemmas -/

theorem jsSlice_length_le (s : String) (n : Nat) : (jsSlice s n).length ≤ n :=
  List.length_take_le n s.data

theorem containsStr_append_left (p s sub : String)
    (h : containsStr s sub) : containsStr (p ++ s) sub := by
  obtain ⟨a, b, hab⟩ := h
  refine ⟨p ++ a, b, ?_⟩
  rw [hab]
  simp [String.append_assoc]

theorem jsJoin_cons_cons (sep s t : String) (rest : List String) :
    jsJoin sep (s :: t :: rest) = s ++ sep ++ jsJoin sep (t :: rest) := rfl

theorem jsJoin_contains (sep : String) :
    ∀ (l : List String) (u : String), u ∈ l → containsStr (jsJoin sep l) u
  | [], u, hu => absurd hu (List.not_mem_nil u)
  | [s], u, hu => by
    rw [List.mem_singleton.mp hu]
    refine ⟨"", "", ?_⟩
    rw [String.empty_append, String.append_empty]
    rfl
  | s :: t :: rest, u, hu => by
    rcases List.mem_cons.mp hu with h | h
    · refine ⟨"", sep ++ jsJoin sep (t :: rest), ?_⟩
      rw [h, String.empty_append, jsJoin_cons_cons, String.append_assoc]
    · obtain ⟨a, b, hab⟩ := jsJoin_contains sep (t :: rest) u h
      refine ⟨s ++ sep ++ a, b, ?_⟩
      rw [jsJoin_cons_cons, hab]
      simp [String.append_assoc]

theorem isEmpty_eq_false_of_ne (t : String) (hne : t ≠ "") :
    t.isEmpty = false := by
  cases h : t.isEmpty
  · rfl
  · exact absurd ((String.isEmpty_iff t).mp h) hne

theorem jsOrElse_some_of_ne (t : String) (d : String) (hne : t ≠ "") :
    jsOrElse (some t) d = t := by
  simp [jsOrElse, isEmpty_eq_false_of_ne t hne]

theorem jsTruthyStr_some_of_ne (t : String) (hne : t ≠ "") :
    jsTruthyStr (some t) = true := by
  simp [jsTruthyStr, isEmpty_eq_false_of_ne t hne]

/-- A sample price table used by witnesses: an empty lookup whose default
tier charges 1 per thousand input tokens and 2 per thousand output tokens. -/
def sampleTable : PricingTable :=
  { lookup := fun _ => none, flashEntry := { input := 1, output := 2 } }

/-! ## Claim theorems -/

/-- C6: for every model identifier and every usage record, calculateCost
equals promptTokenCount/1000 times the resolved input price plus
candidatesTokenCount/1000 times the resolved output price, with absent
counts (or wholly absent usage) treated as 0; the result is nonnegative
whenever the resolved prices are, and absent usage yields cost 0. The
function is total, so it never fails. -/
theorem calculateCost_formula_nonneg (tbl : PricingTable) (model : String)
    (usage : Option Usage)
    (hin : 0 ≤ (resolvePricing tbl model).input)
    (hout : 0 ≤ (resolvePricing tbl model).output) :
    calculateCost tbl model usage =
      ((promptCountOf usage : Nat) : Rat) / 1000 *
        (resolvePricing tbl model).input +
      ((candidatesCountOf usage : Nat) : Rat) / 1000 *
        (resolvePricing tbl model).output ∧
    0 ≤ calculateCost tbl model usage ∧
    calculateCost tbl model none = 0 := by
  have hform : calculateCost tbl model usage =
      ((promptCountOf usage : Nat) : Rat) / 1000 *
        (resolvePricing tbl model).input +
      ((candidatesCountOf usage : Nat) : Rat) / 1000 *
        (resolvePricing tbl model).output := by
    cases usage with
    | none => simp [calculateCost, promptCountOf, candidatesCountOf]
    | some u => rfl
  refine ⟨hform, ?_, rfl⟩
  rw [hform]
  have h1 : (0 : Rat) ≤ ((promptCountOf usage : Nat) : Rat) / 1000 := by
    positivity
  have h2 : (0 : Rat) ≤ ((candidatesCountOf usage : Nat) : Rat) / 1000 := by
    positivity
  exact add_nonneg (mul_nonneg h1 hin) (mul_nonneg h2 hout)

/-- A sample usage record used by the C6 witness. -/
def sampleUsage : Usage :=
  { promptTokenCount := some 100, candidatesTokenCount := none
    totalTokenCount := some 300 }

/-- Witness for C6 at a concrete model, table, and usage record. -/
theorem calculateCost_formula_nonneg_witness :
    0 ≤ (resolvePricing sampleTable "gemini-2.5-pro").input ∧
    0 ≤ (resolvePricing sampleTable "gemini-2.5-pro").output ∧
    (calculateCost sampleTable "gemini-2.5-pro" (some sampleUsage) =
      ((promptCountOf (some sampleUsage) : Nat) : Rat) / 1000 *
        (resolvePricing sampleTable "gemini-2.5-pro").input +
      ((candidatesCountOf (some sampleUsage) : Nat) : Rat) / 1000 *
        (resolvePricing sampleTable "gemini-2.5-pro").output ∧
      0 ≤ calculateCost sampleTable "gemini-2.5-pro" (some sampleUsage) ∧
      calculateCost sampleTable "gemini-2.5-pro" none = 0) :=
  ⟨by norm_num [resolvePricing, sampleTable],
   by norm_num [resolvePricing, sampleTable],
   calculateCost_formula_nonneg sampleTable "gemini-2.5-pro"
     (some sampleUsage)
     (by norm_num [resolvePricing, sampleTable])
     (by norm_num [resolvePricing, sampleTable])⟩

/-- C4: for every gateway response whose text is non-empty and fails JSON
parsing, runRouterAgent propagates the failure to the caller instead of
returning a routing decision. -/
theorem router_parse_failure_propagates
    (parseRouter : String → Option RouterParsed) (tbl : PricingTable)
    (m ts : String) (lat : Rat) (resp : ModelResponse) (t : String)
    (ht : resp.text = some t) (hne : t ≠ "") (hp : parseRouter t = none) :
    runRouterAgent parseRouter tbl m ts lat resp = Except.error () := by
  unfold runRouterAgent
  rw [ht, jsOrElse_some_of_ne t _ hne, hp]

/-- Witness for C4: a parser that rejects everything on a malformed text. -/
theorem router_parse_failure_propagates_witness :
    runRouterAgent (fun _ => none) sampleTable "m" "ts" 1
      { text := some "not json" } = Except.error () :=
  router_parse_failure_propagates (fun _ => none) sampleTable "m" "ts" 1
    { text := some "not json" } "not json" rfl (by decide) rfl

/-- C9: for every gateway response whose text is absent or empty,
runRouterAgent succeeds by parsing the substitute empty-object literal: it
returns a result whose target_company, analysis_type and search_queries are
all undefined, with a success log. The hypothesis on the parser records
that JSON.parse of the empty-object literal yields the empty object. -/
theorem router_empty_text_success
    (parseRouter : String → Option RouterParsed) (tbl : PricingTable)
    (m ts : String) (lat : Rat) (resp : ModelResponse)
    (ht : resp.text = none ∨ resp.text = some "")
    (hp : parseRouter "\x7b\x7d" = some {}) :
    ∃ r, runRouterAgent parseRouter tbl m ts lat resp = Except.ok r ∧
      r.target_company = none ∧ r.analysis_type = none ∧
      r.search_queries = none ∧ r.log.type = LogType.success := by
  have he : jsOrElse resp.text "\x7b\x7d" = "\x7b\x7d" := by
    rcases ht with h | h
    · rw [h]; rfl
    · rw [h]; rfl
  unfold runRouterAgent
  rw [he, hp]
  exact ⟨_, rfl, rfl, rfl, rfl, rfl⟩

/-- A parser recognizing exactly the empty-object literal, used by the C9
witness. -/
def emptyObjRouterParse : String → Option RouterParsed :=
  fun s => if s = "\x7b\x7d" then some {} else none

/-- Witness for C9 at a response with absent text. -/
theorem router_empty_text_success_witness :
    ∃ r, runRouterAgent emptyObjRouterParse sampleTable "m" "ts" 1
        { text := none } = Except.ok r ∧
      r.target_company = none ∧ r.analysis_type = none ∧
      r.search_queries = none ∧ r.log.type = LogType.success :=
  router_empty_text_success emptyObjRouterParse sampleTable "m" "ts" 1
    { text := none } (Or.inl rfl) (by decide)

/-- C3: for every gateway failure, and for every gateway response whose text
is absent or empty, runReporterAgent does not propagate an error: it returns
the fixed failure-placeholder markdown with an error-status log whose
latencyMs, cost and tokenUsage are all 0, and the report is non-empty. -/
theorem reporter_failure_placeholder (tbl : PricingTable) (m ts : String)
    (lat : Rat) (company : String) (gw : Except String ModelResponse)
    (h : ∀ resp, gw = Except.ok resp → jsTruthyStr resp.text = false) :
    (runReporterAgent tbl m ts lat company gw).report = reporterPlaceholder ∧
    (runReporterAgent tbl m ts lat company gw).log.type = LogType.error ∧
    (runReporterAgent tbl m ts lat company gw).log.latencyMs = 0 ∧
    (runReporterAgent tbl m ts lat company gw).log.cost = 0 ∧
    (runReporterAgent tbl m ts lat company gw).log.tokenUsage = 0 ∧
    (runReporterAgent tbl m ts lat company gw).report ≠ "" := by
  have hplaceholder : reporterPlaceholder ≠ "" := by decide
  cases gw with
  | error e =>
    exact ⟨rfl, rfl, rfl, rfl, rfl, hplaceholder⟩
  | ok resp =>
    have hfalse := h resp rfl
    simp only [runReporterAgent, hfalse, Bool.false_eq_true, if_false]
    exact ⟨rfl, rfl, rfl, rfl, rfl, hplaceholder⟩

/-- Witness for C3 at a concrete gateway failure. -/
theorem reporter_failure_placeholder_witness :
    (runReporterAgent sampleTable "m" "ts" 1 "Acme"
        (Except.error "network down")).report = reporterPlaceholder ∧
    (runReporterAgent sampleTable "m" "ts" 1 "Acme"
        (Except.error "network down")).log.type = LogType.error ∧
    (runReporterAgent sampleTable "m" "ts" 1 "Acme"
        (Except.error "network down")).log.latencyMs = 0 ∧
    (runReporterAgent sampleTable "m" "ts" 1 "Acme"
        (Except.error "network down")).log.cost = 0 ∧
    (runReporterAgent sampleTable "m" "ts" 1 "Acme"
        (Except.error "network down")).log.tokenUsage = 0 ∧
    (runReporterAgent sampleTable "m" "ts" 1 "Acme"
        (Except.error "network down")).report ≠ "" :=
  reporter_failure_placeholder sampleTable "m" "ts" 1 "Acme"
    (Except.error "network down") (fun resp hresp => by cases hresp)

/-- C5: for every gateway response whose text is non-empty and fails JSON
parsing, runAnalystAgent does not fail: it returns the fallback SWOT with
all four list fields empty and all five scores at 0, the console warning
fires, and the returned log still has success status (the parse failure is
not a stage failure). -/
theorem analyst_parse_failure_fallback
    (parseSwot : String → Option ParsedSwot) (tbl : PricingTable)
    (m ts : String) (lat : Rat) (content : String) (resp : ModelResponse)
    (t : String) (ht : resp.text = some t) (hne : t ≠ "")
    (hp : parseSwot t = none) :
    (runAnalystAgent parseSwot tbl m ts lat content resp).swot =
      { strengths := some [], weaknesses := some [], opportunities := some []
        threats := some [], scores := uniformScores 0 } ∧
    (runAnalystAgent parseSwot tbl m ts lat content resp).warned = true ∧
    (runAnalystAgent parseSwot tbl m ts lat content resp).log.type =
      LogType.success := by
  have he : jsOrElse resp.text "\x7b\x7d" = t := by
    rw [ht, jsOrElse_some_of_ne t _ hne]
  refine ⟨?_, ?_, rfl⟩
  · show (analystRepair (parseSwot (jsOrElse resp.text "\x7b\x7d"))).1 = _
    rw [he, hp]
    rfl
  · show (analystRepair (parseSwot (jsOrElse resp.text "\x7b\x7d"))).2 = true
    rw [he, hp]
    rfl

/-- Witness for C5: a parser that rejects everything on a malformed text. -/
theorem analyst_parse_failure_fallback_witness :
    (runAnalystAgent (fun _ => none) sampleTable "m" "ts" 1 "data"
        { text := some "not json" }).swot =
      { strengths := some [], weaknesses := some [], opportunities := some []
        threats := some [], scores := uniformScores 0 } ∧
    (runAnalystAgent (fun _ => none) sampleTable "m" "ts" 1 "data"
        { text := some "not json" }).warned = true ∧
    (runAnalystAgent (fun _ => none) sampleTable "m" "ts" 1 "data"
        { text := some "not json" }).log.type = LogType.success :=
  analyst_parse_failure_fallback (fun _ => none) sampleTable "m" "ts" 1
    "data" { text := some "not json" } "not json" rfl (by decide) rfl

/-- A parser that always yields an object whose scores sub-object is
partial: only the innovation key is present (at 10). Models a successful
JSON.parse of such a response text. -/
def sparseScoresParse : String → Option ParsedSwot := fun _ =>
  some { strengths := some [], weaknesses := some [], opportunities := some []
         threats := some [], scores := some { innovation := some 10 } }

/-- C1 is violated by the code: when parsing succeeds and the scores
sub-object is present but partial, runAnalystAgent does not backfill the
missing keys, so the returned scores mapping does not contain all five keys
with values in the range 0 to 100, contradicting the claimed invariant (and
the inline source comment about partial objects). At this input the parsed
innovation value survives while market_share stays absent instead of being
backfilled to 50. -/
theorem analyst_sparse_scores_not_backfilled :
    (runAnalystAgent sparseScoresParse sampleTable "m" "ts" 1 "data"
        { text := some "partial" }).swot.scores.innovation = some 10 ∧
    (runAnalystAgent sparseScoresParse sampleTable "m" "ts" 1 "data"
        { text := some "partial" }).swot.scores.market_share = none ∧
    ¬ (runAnalystAgent sparseScoresParse sampleTable "m" "ts" 1 "data"
        { text := some "partial" }).swot.scores.market_share = some 50 :=
  ⟨rfl, rfl, by decide⟩

/-- C2: for every gateway response with zero qualifying grounding references
but non-empty text, the Hunter synthesizes exactly one SourceRecord whose
content is the full response text (pre-truncation) and whose URL is the
generic search URL for the company; the record actually returned is the same
one with its content truncated to 2000 characters. For a company name that
encodeURIComponent leaves unchanged, the URL contains the company name. -/
theorem hunter_fallback_single_record (tbl : PricingTable) (m ts : String)
    (lat : Rat) (company : String) (queries : List String)
    (resp : ModelResponse) (t : String)
    (ht : resp.text = some t) (hne : t ≠ "")
    (hz : (chunksOf resp).filter chunkQualifies = [])
    (henc : encodeURIComponent company = company) :
    hunterDiscoveredUrls company resp =
      [{ url := hunterFallbackUrl company
         title := company ++ " Search Results"
         snippet := jsSlice t 150 ++ "..."
         content := t }] ∧
    containsStr (hunterFallbackUrl company) company ∧
    (runHunterAgent tbl m ts lat company queries resp).discoveredUrls =
      [{ url := hunterFallbackUrl company
         title := company ++ " Search Results"
         snippet := jsSlice t 150 ++ "..."
         content := jsSlice t 2000 }] := by
  have hdisc : hunterFromChunks (resp.text.getD "") (chunksOf resp) = [] := by
    unfold hunterFromChunks
    rw [hz]
    rfl
  have hone : hunterDiscoveredUrls company resp =
      [{ url := hunterFallbackUrl company
         title := company ++ " Search Results"
         snippet := jsSlice t 150 ++ "..."
         content := t }] := by
    simp only [hunterDiscoveredUrls]
    rw [hdisc, ht]
    simp [jsTruthyStr_some_of_ne t hne]
  refine ⟨hone, ⟨"https://google.com/search?q=", "", ?_⟩, ?_⟩
  · rw [String.append_empty]
    unfold hunterFallbackUrl
    rw [henc]
  · simp only [runHunterAgent]
    rw [hone]
    rfl

/-- Witness for C2 at a concrete response with no grounding chunks. -/
theorem hunter_fallback_single_record_witness :
    hunterDiscoveredUrls "AcmeInc" { text := some "hello" } =
      [{ url := hunterFallbackUrl "AcmeInc"
         title := "AcmeInc Search Results"
         snippet := jsSlice "hello" 150 ++ "..."
         content := "hello" }] ∧
    containsStr (hunterFallbackUrl "AcmeInc") "AcmeInc" ∧
    (runHunterAgent sampleTable "m" "ts" 1 "AcmeInc" []
        { text := some "hello" }).discoveredUrls =
      [{ url := hunterFallbackUrl "AcmeInc"
         title := "AcmeInc Search Results"
         snippet := jsSlice "hello" 150 ++ "..."
         content := jsSlice "hello" 2000 }] :=
  hunter_fallback_single_record sampleTable "m" "ts" 1 "AcmeInc" []
    { text := some "hello" } "hello" rfl (by decide) rfl (by decide)

/-- C7: every SourceRecord returned by runHunterAgent, whether derived from
grounding chunks or from the fallback, has its content truncated to at most
2000 characters. -/
theorem hunter_content_truncated (tbl : PricingTable) (m ts : String)
    (lat : Rat) (company : String) (queries : List String)
    (resp : ModelResponse) :
    ∀ r ∈ (runHunterAgent tbl m ts lat company queries resp).discoveredUrls,
      r.content.length ≤ 2000 := by
  intro r hr
  simp only [runHunterAgent, List.mem_map] at hr
  obtain ⟨u, hu, rfl⟩ := hr
  exact jsSlice_length_le u.content 2000

/-- Witness for C7 at the concrete fallback record of a concrete run. -/
theorem hunter_content_truncated_witness :
    ({ url := hunterFallbackUrl "AcmeInc"
       title := "AcmeInc Search Results"
       snippet := jsSlice "hello" 150 ++ "..."
       content := jsSlice "hello" 2000 } : ScrapedContent).content.length ≤
      2000 :=
  hunter_content_truncated sampleTable "m" "ts" 1 "AcmeInc" []
    { text := some "hello" } _ (by decide)

/-- C8: the prompt the Scraper sends to the gateway contains the fixed
no-specific-URLs substitution instruction when the input sequence is empty,
and for a non-empty sequence the raw-data section is exactly the join of one
Source/Title/Summary block per record, each block occurring in the prompt
with its summary capped at 2000 characters. -/
theorem scraper_prompt_structure :
    containsStr (scraperPrompt []) scraperNoUrlsSentinel ∧
    (∀ (urls : List ScrapedContent), urls ≠ [] →
      scraperRawText urls = jsJoin "\n\n" (urls.map scraperBlock) ∧
      ∀ u ∈ urls, containsStr (scraperPrompt urls) (scraperBlock u) ∧
        (jsSlice u.content 2000).length ≤ 2000) := by
  constructor
  · refine ⟨scraperPromptHeader, "", ?_⟩
    rw [String.append_empty]
    rfl
  · intro urls hne
    have hlen : 0 < urls.length := List.length_pos.mpr hne
    have hraw : scraperRawText urls = jsJoin "\n\n" (urls.map scraperBlock) := by
      unfold scraperRawText
      rw [if_pos hlen]
    refine ⟨hraw, fun u hu => ⟨?_, jsSlice_length_le u.content 2000⟩⟩
    unfold scraperPrompt
    rw [hraw]
    exact containsStr_append_left _ _ _
      (jsJoin_contains "\n\n" (urls.map scraperBlock) (scraperBlock u)
        (List.mem_map_of_mem scraperBlock hu))

/-- A sample SourceRecord used by the C8 witness. -/
def sampleSource : ScrapedContent :=
  { url := "https://example.test/a", title := "A", snippet := "s"
    content := "facts" }

/-- Witness for C8 at a concrete singleton record list. -/
theorem scraper_prompt_structure_witness :
    containsStr (scraperPrompt [sampleSource]) (scraperBlock sampleSource) ∧
    (jsSlice sampleSource.content 2000).length ≤ 2000 :=
  (scraper_prompt_structure.2 [sampleSource] (List.cons_ne_nil _ _)).2
    sampleSource (List.mem_singleton.mpr rfl)

/-- Response carrying a positive total token count but no per-direction
counts and no text; used by the C10 counterexample. -/
def respTotalOnly : ModelResponse :=
  { text := none
    usageMetadata := some { promptTokenCount := none
                            candidatesTokenCount := none
                            totalTokenCount := some 5 }
    candidates := none }

/-- C10 as stated is violated by the Reporter: at a gateway response whose
usageMetadata carries totalTokenCount 5 (and no other counts) but whose text
is absent, the Reporter takes its catch path and produces the zeroed error
log, so the produced LogEntry has tokenUsage 0, not greater than 0. -/
theorem reporter_zero_usage_error_log :
    respTotalOnly.usageMetadata =
      some { promptTokenCount := none, candidatesTokenCount := none
             totalTokenCount := some 5 } ∧
    (runReporterAgent sampleTable "m" "ts" 1 "Acme"
        (Except.ok respTotalOnly)).log.tokenUsage = 0 ∧
    ¬ 0 < (runReporterAgent sampleTable "m" "ts" 1 "Acme"
        (Except.ok respTotalOnly)).log.tokenUsage :=
  ⟨rfl, rfl, by decide⟩

/-- The Reporter result on a response with truthy text. -/
theorem runReporterAgent_ok_truthy (tbl : PricingTable)
    (reporterModel ts : String) (lat : Rat) (company : String)
    (resp : ModelResponse) (htext : jsTruthyStr resp.text = true) :
    runReporterAgent tbl reporterModel ts lat company (Except.ok resp) =
      { report := resp.text.getD ""
        log :=
          { timestamp := ts
            agent := AgentRole.REPORTER
            message := "Finalized executive report for " ++ company
            type := LogType.success
            latencyMs := lat
            tokenUsage := (resp.usageMetadata.bind
              (fun u => u.totalTokenCount)).getD 0
            cost := calculateCost tbl reporterModel resp.usageMetadata } } := by
  have h0 : runReporterAgent tbl reporterModel ts lat company
      (Except.ok resp) =
      (if jsTruthyStr resp.text then
        { report := resp.text.getD ""
          log :=
            { timestamp := ts
              agent := AgentRole.REPORTER
              message := "Finalized executive report for " ++ company
              type := LogType.success
              latencyMs := lat
              tokenUsage := (resp.usageMetadata.bind
                (fun u => u.totalTokenCount)).getD 0
              cost := calculateCost tbl reporterModel resp.usageMetadata } }
      else reporterFailure reporterEmptyErr ts) := rfl
  rw [h0, htext]
  simp

/-- C10 amended: for every stage and every gateway response whose
usageMetadata carries totalTokenCount n greater than 0 but no
promptTokenCount and no candidatesTokenCount, every LogEntry built from that
response has tokenUsage greater than 0 and cost exactly 0, because
tokenUsage is read from totalTokenCount while the cost formula reads only
the two absent per-direction counts. This holds unconditionally for Hunter,
Scraper and Analyst; for the Router whenever its parse succeeds (the only
case in which it produces a log at all); and for the Reporter under the
condition, local to its conjunct, that the response text is truthy (its
catch path otherwise returns the zeroed error log, the counterexample to
the original claim). -/
theorem stage_logs_token_usage_cost
    (parseRouter : String → Option RouterParsed)
    (parseSwot : String → Option ParsedSwot) (tbl : PricingTable)
    (m ts : String) (lat : Rat) (company content : String)
    (queries : List String) (urls : List ScrapedContent)
    (resp : ModelResponse) (n : Nat)
    (hu : resp.usageMetadata =
      some { promptTokenCount := none, candidatesTokenCount := none
             totalTokenCount := some n })
    (hn : 0 < n) :
    (∀ r, runRouterAgent parseRouter tbl m ts lat resp = Except.ok r →
      0 < r.log.tokenUsage ∧ r.log.cost = 0) ∧
    (0 < (runHunterAgent tbl m ts lat company queries resp).log.tokenUsage ∧
      (runHunterAgent tbl m ts lat company queries resp).log.cost = 0) ∧
    (0 < (runScraperAgent tbl m ts lat urls resp).log.tokenUsage ∧
      (runScraperAgent tbl m ts lat urls resp).log.cost = 0) ∧
    (0 < (runAnalystAgent parseSwot tbl m ts lat content
        resp).log.tokenUsage ∧
      (runAnalystAgent parseSwot tbl m ts lat content resp).log.cost = 0) ∧
    (jsTruthyStr resp.text = true →
      0 < (runReporterAgent tbl m ts lat company
          (Except.ok resp)).log.tokenUsage ∧
        (runReporterAgent tbl m ts lat company (Except.ok resp)).log.cost
          = 0) := by
  have htok : (resp.usageMetadata.bind
      (fun u => u.totalTokenCount)).getD 0 = n := by
    rw [hu]
    rfl
  have hcost : ∀ model, calculateCost tbl model resp.usageMetadata = 0 := by
    intro model
    rw [hu]
    simp [calculateCost]
  refine ⟨?_, ⟨?_, ?_⟩, ⟨?_, ?_⟩, ⟨?_, ?_⟩, ?_⟩
  · intro r hr
    unfold runRouterAgent at hr
    cases hparse : parseRouter (jsOrElse resp.text "\x7b\x7d") with
    | none => rw [hparse] at hr; cases hr
    | some result =>
      rw [hparse] at hr
      cases hr
      constructor
      · show 0 < (resp.usageMetadata.bind
          (fun u => u.totalTokenCount)).getD 0
        rw [htok]; exact hn
      · exact hcost m
  · show 0 < (resp.usageMetadata.bind (fun u => u.totalTokenCount)).getD 0
    rw [htok]; exact hn
  · exact hcost m
  · show 0 < (resp.usageMetadata.bind (fun u => u.totalTokenCount)).getD 0
    rw [htok]; exact hn
  · exact hcost m
  · show 0 < (resp.usageMetadata.bind (fun u => u.totalTokenCount)).getD 0
    rw [htok]; exact hn
  · exact hcost m
  · intro htext
    constructor
    · rw [runReporterAgent_ok_truthy tbl m ts lat company resp htext]
      show 0 < (resp.usageMetadata.bind (fun u => u.totalTokenCount)).getD 0
      rw [htok]; exact hn
    · rw [runReporterAgent_ok_truthy tbl m ts lat company resp htext]
      exact hcost m

/-- Response with a report text and only a total token count, used by the
C10 witness. -/
def respOkTotal : ModelResponse :=
  { text := some "final report"
    usageMetadata := some { promptTokenCount := none
                            candidatesTokenCount := none
                            totalTokenCount := some 5 }
    candidates := none }

/-- Witness for the amended C10 at a concrete response. -/
theorem stage_logs_token_usage_cost_witness :
    (∀ r, runRouterAgent emptyObjRouterParse sampleTable "m" "ts" 1
        respOkTotal = Except.ok r →
      0 < r.log.tokenUsage ∧ r.log.cost = 0) ∧
    (0 < (runHunterAgent sampleTable "m" "ts" 1 "Acme" []
        respOkTotal).log.tokenUsage ∧
      (runHunterAgent sampleTable "m" "ts" 1 "Acme" []
        respOkTotal).log.cost = 0) ∧
    (0 < (runScraperAgent sampleTable "m" "ts" 1 []
        respOkTotal).log.tokenUsage ∧
      (runScraperAgent sampleTable "m" "ts" 1 [] respOkTotal).log.cost = 0) ∧
    (0 < (runAnalystAgent (fun _ => none) sampleTable "m" "ts" 1 "data"
        respOkTotal).log.tokenUsage ∧
      (runAnalystAgent (fun _ => none) sampleTable "m" "ts" 1 "data"
        respOkTotal).log.cost = 0) ∧
    (0 < (runReporterAgent sampleTable "m" "ts" 1 "Acme"
        (Except.ok respOkTotal)).log.tokenUsage ∧
      (runReporterAgent sampleTable "m" "ts" 1 "Acme"
        (Except.ok respOkTotal)).log.cost = 0) :=
  have h := stage_logs_token_usage_cost emptyObjRouterParse (fun _ => none)
    sampleTable "m" "ts" 1 "Acme" "data" [] [] respOkTotal 5 rfl (by decide)
  ⟨h.1, h.2.1, h.2.2.1, h.2.2.2.1, h.2.2.2.2 (by decide)⟩
